import Mathlib

/-!
Verification of the MSP packet codec and the navigation command translation
layer of `drone_controller.py`.

The embedding mirrors the source:
* `calculate_checksum`, `send_command_packet`, `pack_u16le`,
  `set_rc_channels_data` embed the `MSPProtocol` byte-level codec
  (bytes are `Nat`, values reduced mod 256 / mod 2^16 where the source's
  `bytearray.append` / `struct.pack` would range-check them).
* `DroneState` embeds `current_position` / `current_heading` (numbers are `ℚ`,
  standing for Python's exact reference values).
* The binary-path methods are embedded as pure functions from the prior state
  to `(new state, emitted event trace, returned result)`.  The event trace
  records, in order, every `arm` / `disarm` / `set_rc_channels` call and every
  `time.sleep` the controller issues.
* The wall-clock `while time.time() - start_time < T` hold loops are embedded
  by passing the list of elapsed-clock readings the loop would observe
  (`samples`); the loop body runs once per reading below the deadline.
* `move`'s planar distance `(delta_x**2 + delta_y**2)**0.5` is passed as a
  parameter `d`; theorems constrain it by `0 ≤ d` and
  `d * d = delta_x^2 + delta_y^2`, which characterises the square root.
* The REST path (`send_command` over HTTP) is embedded with the transport
  outcome as a parameter: `none` for a raised exception, `some (status, body)`
  for a response, where `body : Bool` is the Python truthiness of the decoded
  JSON value.
-/

/-- Truncation toward zero: Python's `int()` applied to an exact value. -/
def pyint (q : ℚ) : ℤ := if 0 ≤ q then ⌊q⌋ else ⌈q⌉

/-- Python's `%` on numbers (floored modulo, sign of the divisor). -/
def pymod (a b : ℚ) : ℚ := a - b * ⌊a / b⌋

/-- `MSPProtocol._calculate_checksum`: iterative XOR over `data`, seeded at 0. -/
def calculate_checksum (data : List ℕ) : ℕ :=
  List.foldl (fun checksum byte => checksum ^^^ byte) 0 data

/-- The 3 header bytes `b'$M<'` of a host-to-controller MSP frame. -/
def msp_header : List ℕ := [36, 77, 60]

/-- `MSPProtocol.send_command`: the full byte sequence written to the serial
port: header, size, command, data, then the checksum of `packet[3:]`. -/
def send_command_packet (command : ℕ) (data : List ℕ) : List ℕ :=
  let size := data.length
  let packet := msp_header ++ [size, command] ++ data
  packet ++ [calculate_checksum (packet.drop 3)]

/-- `struct.pack('<H', v)`: a 16-bit value as two little-endian bytes. -/
def pack_u16le (v : ℕ) : List ℕ := [v % 256, v / 256 % 256]

/-- `MSPProtocol.MSP_SET_RAW_RC`. -/
def MSP_SET_RAW_RC : ℕ := 200

/-- `MSPProtocol.set_rc_channels`: the payload packs the eight channels as
little-endian unsigned shorts, in the source's list order. -/
def set_rc_channels_data (roll pitch throttle yaw aux1 aux2 aux3 aux4 : ℕ) :
    List ℕ :=
  pack_u16le roll ++ pack_u16le pitch ++ pack_u16le throttle ++
    pack_u16le yaw ++ pack_u16le aux1 ++ pack_u16le aux2 ++
    pack_u16le aux3 ++ pack_u16le aux4

/-- `MSPProtocol.set_rc_channels`: the frame it hands to `send_command`. -/
def set_rc_channels_frame (roll pitch throttle yaw aux1 aux2 aux3 aux4 : ℕ) :
    List ℕ :=
  send_command_packet MSP_SET_RAW_RC
    (set_rc_channels_data roll pitch throttle yaw aux1 aux2 aux3 aux4)

/-- One observable effect of the binary-path controller code, in program
order: an MSP `arm` / `disarm` frame, an RC-channel frame (the source always
leaves the four aux channels at their default 1000), a `time.sleep`, or the
release of the serial handle (`MSPProtocol.close`). -/
inductive Event where
  | arm : Event
  | disarm : Event
  | rc (roll pitch throttle yaw : ℤ) : Event
  | sleep (seconds : ℚ) : Event
  | releaseLink : Event
deriving DecidableEq

/-- `DroneController.current_position` and `current_heading`. -/
structure DroneState where
  x : ℚ
  y : ℚ
  z : ℚ
  heading : ℚ
deriving DecidableEq

/-- The state set by `DroneController.__init__`: origin, heading 0. -/
def initial_state : DroneState := ⟨0, 0, 0, 0⟩

/-- Iterations of `while time.time() - start_time < holdTime`: one iteration
per elapsed-clock reading strictly below the deadline, stopping at the first
reading at or past it. -/
def holdCount (holdTime : ℚ) (samples : List ℚ) : ℕ :=
  (samples.takeWhile (fun t => t < holdTime)).length

/-- The body of a hold loop run `n` times: each iteration sends one
RC-channel frame and then sleeps 0.1 s. -/
def holdTrace (roll pitch throttle yaw : ℤ) (n : ℕ) : List Event :=
  (List.replicate n [Event.rc roll pitch throttle yaw,
    Event.sleep (1 / 10)]).flatten

/-- The throttle values of `range(1000, 1500, 10)` in `DroneController.takeoff`. -/
def takeoff_ramp_throttles : List ℤ :=
  (List.range 50).map (fun i : ℕ => 1000 + 10 * (i : ℤ))

/-- `DroneController.takeoff`, binary branch: arm, sleep 1 s, ramp the
throttle with 0.1 s pacing, hold 1550 for 20 paced steps, set `z := height`,
return `True`. -/
def takeoff_msp (st : DroneState) (height : ℚ) :
    DroneState × List Event × Bool :=
  let ramp := (takeoff_ramp_throttles.map
    (fun t => [Event.rc 1500 1500 t 1500, Event.sleep (1 / 10)])).flatten
  let settle := (List.replicate 20
    [Event.rc 1500 1500 1550 1500, Event.sleep (1 / 10)]).flatten
  ({ st with z := height },
   Event.arm :: Event.sleep 1 :: (ramp ++ settle),
   true)

/-- `DroneController.move`, binary branch.  `d` is the computed planar
distance; `samples` the elapsed-clock readings of the hold loop.  When
`d > 0` the channel values are offset from neutral by the truncated scaled
unit direction, clamped to [1400, 1600], held for `d * 2` seconds, then one
neutral frame is sent; in every case the position becomes `{x, y, z}` and the
call returns `True`. -/
def move_msp (st : DroneState) (x y z d : ℚ) (samples : List ℚ) :
    DroneState × List Event × Bool :=
  let delta_x := x - st.x
  let delta_y := y - st.y
  let trace :=
    if 0 < d then
      let roll_value := max 1400 (min 1600 (1500 + pyint (delta_x / d * 100)))
      let pitch_value := max 1400 (min 1600 (1500 + pyint (delta_y / d * 100)))
      let move_time := d * 2
      holdTrace roll_value pitch_value 1500 1500 (holdCount move_time samples)
        ++ [Event.rc 1500 1500 1500 1500]
    else []
  ({ st with x := x, y := y, z := z }, trace, true)

/-- `DroneController.rotate`, binary branch: yaw 1600 when turning clockwise,
1400 counter-clockwise, else neutral; hold for `|degrees| / 45` seconds; one
neutral frame; heading updated by Python's `% 360`; returns `True`. -/
def rotate_msp (st : DroneState) (degrees : ℚ) (samples : List ℚ) :
    DroneState × List Event × Bool :=
  let yaw_value : ℤ := if 0 < degrees then 1600
    else if degrees < 0 then 1400 else 1500
  let rotate_time := |degrees| / 45
  let trace := holdTrace 1500 1500 1500 yaw_value
      (holdCount rotate_time samples) ++ [Event.rc 1500 1500 1500 1500]
  ({ st with heading := pymod (st.heading + degrees) 360 }, trace, true)

/-- The throttle values of `range(1500, 1300, -5)` in `DroneController.land`. -/
def land_ramp_throttles : List ℤ :=
  (List.range 40).map (fun i : ℕ => 1500 - 5 * (i : ℤ))

/-- `DroneController.land`, binary branch: ramp the throttle down with 0.1 s
pacing, sleep 5 s, disarm, set `z := 0`, return `True`. -/
def land_msp (st : DroneState) : DroneState × List Event × Bool :=
  let ramp := (land_ramp_throttles.map
    (fun t => [Event.rc 1500 1500 t 1500, Event.sleep (1 / 10)])).flatten
  ({ st with z := 0 }, ramp ++ [Event.sleep 5, Event.disarm], true)

/-- `DroneController.close`: when a serial link is configured it closes it
(`self.msp.close()`); nothing else happens on either branch. -/
def close_trace (hasMsp : Bool) : List Event :=
  if hasMsp then [Event.releaseLink] else []

/-- `DroneController.send_command` (REST path): `none` when `requests.post`
raised; otherwise the body's truthiness is returned for status 200 and `None`
for any other status. -/
def api_send_command (outcome : Option (ℕ × Bool)) : Option Bool :=
  match outcome with
  | none => none
  | some (status, body) => if status = 200 then some body else none

/-- Python truthiness of a `send_command` result: `None` is falsy, a JSON
value has its own truthiness. -/
def truthy : Option Bool → Bool
  | none => false
  | some b => b

/-- `DroneController.takeoff`, REST branch: update `z` only on a truthy
result; return the result itself. -/
def takeoff_api (st : DroneState) (height : ℚ) (result : Option Bool) :
    DroneState × Option Bool :=
  (if truthy result then { st with z := height } else st, result)

/-- `DroneController.move`, REST branch. -/
def move_api (st : DroneState) (x y z : ℚ) (result : Option Bool) :
    DroneState × Option Bool :=
  (if truthy result then { st with x := x, y := y, z := z } else st, result)

/-- `DroneController.rotate`, REST branch. -/
def rotate_api (st : DroneState) (degrees : ℚ) (result : Option Bool) :
    DroneState × Option Bool :=
  (if truthy result then
    { st with heading := pymod (st.heading + degrees) 360 } else st, result)

/-- `DroneController.land`, REST branch. -/
def land_api (st : DroneState) (result : Option Bool) :
    DroneState × Option Bool :=
  (if truthy result then { st with z := 0 } else st, result)

/-- Seconds slept by one event: the argument of a `time.sleep`, else 0. -/
def eventSleep : Event → ℚ
  | Event.sleep s => s
  | _ => 0

/-- Total seconds slept by `time.sleep` calls in an event trace. -/
def traceSleepTime (trace : List Event) : ℚ := (trace.map eventSleep).sum

lemma traceSleepTime_replicate (r p t y : ℤ) (s : ℚ) (n : ℕ) :
    traceSleepTime
      ((List.replicate n [Event.rc r p t y, Event.sleep s]).flatten) =
      n * s := by
  induction n with
  | zero => simp [traceSleepTime]
  | succ k ih =>
    simp only [List.replicate_succ, List.flatten_cons, traceSleepTime,
      List.map_append, List.sum_append] at ih ⊢
    rw [ih]
    simp [eventSleep]
    ring

lemma pymod_nonneg (a b : ℚ) (hb : 0 < b) : 0 ≤ pymod a b := by
  have h1 : ((⌊a / b⌋ : ℤ) : ℚ) ≤ a / b := Int.floor_le _
  have h2 : b * ((⌊a / b⌋ : ℤ) : ℚ) ≤ b * (a / b) :=
    mul_le_mul_of_nonneg_left h1 (le_of_lt hb)
  have h3 : b * (a / b) = a := by field_simp
  unfold pymod
  linarith

lemma pymod_lt (a b : ℚ) (hb : 0 < b) : pymod a b < b := by
  have h1 : a / b < ((⌊a / b⌋ : ℤ) : ℚ) + 1 := Int.lt_floor_add_one _
  have h2 : b * (a / b) < b * (((⌊a / b⌋ : ℤ) : ℚ) + 1) :=
    mul_lt_mul_of_pos_left h1 hb
  have h3 : b * (a / b) = a := by field_simp
  rw [mul_add, mul_one] at h2
  unfold pymod
  linarith

lemma holdCount_of_nonpos (t : ℚ) (samples : List ℚ) (ht : t ≤ 0)
    (hs : ∀ s ∈ samples, 0 ≤ s) : holdCount t samples = 0 := by
  unfold holdCount
  cases samples with
  | nil => rfl
  | cons a l =>
    have ha : 0 ≤ a := hs a (by simp)
    have hlt : ¬ (a < t) := by linarith
    simp [List.takeWhile_cons, hlt]

lemma foldl_xor_lt (data : List ℕ) (acc : ℕ) (hacc : acc < 256)
    (hd : ∀ b ∈ data, b < 256) :
    List.foldl (fun checksum byte => checksum ^^^ byte) acc data < 256 := by
  induction data generalizing acc with
  | nil => simpa using hacc
  | cons a l ih =>
    simp only [List.foldl_cons]
    refine ih (acc ^^^ a) ?_ (fun b hb => hd b (by simp [hb]))
    have h1 : acc < 2 ^ 8 := by norm_num at hacc ⊢; omega
    have h2 : a < 2 ^ 8 := by
      have := hd a (by simp)
      omega
    have := Nat.xor_lt_two_pow h1 h2
    omega

lemma calculate_checksum_lt (data : List ℕ) (hd : ∀ b ∈ data, b < 256) :
    calculate_checksum data < 256 :=
  foldl_xor_lt data 0 (by norm_num) hd

/-- C1: the encoded MSP frame is the marker `$M<` (bytes 36, 77, 60), the
payload length byte, the command byte, the payload, and one checksum byte
equal to the XOR fold (seeded at 0) of exactly the length byte, command byte
and payload (marker excluded); the total size is `6 + payload length`, and
every emitted byte fits in a byte. -/
theorem msp_frame_layout (command : ℕ) (data : List ℕ)
    (hlen : data.length ≤ 255) (hc : command < 256)
    (hd : ∀ b ∈ data, b < 256) :
    send_command_packet command data =
      [36, 77, 60] ++ data.length :: command :: data ++
        [calculate_checksum (data.length :: command :: data)] ∧
    (send_command_packet command data).length = 6 + data.length ∧
    ∀ b ∈ send_command_packet command data, b < 256 := by
  have hshape : send_command_packet command data =
      [36, 77, 60] ++ data.length :: command :: data ++
        [calculate_checksum (data.length :: command :: data)] := by
    simp [send_command_packet, msp_header]
  refine ⟨hshape, ?_, ?_⟩
  · rw [hshape]
    simp
    omega
  · intro b hb
    rw [hshape] at hb
    have hcs : calculate_checksum (data.length :: command :: data) < 256 := by
      refine calculate_checksum_lt _ ?_
      intro c hc'
      rcases List.mem_cons.mp hc' with h | h
      · omega
      · rcases List.mem_cons.mp h with h' | h'
        · omega
        · exact hd c h'
    simp only [List.append_assoc, List.cons_append, List.nil_append,
      List.mem_cons, List.mem_append, List.mem_singleton] at hb
    rcases hb with rfl | rfl | rfl | rfl | rfl | h | rfl | h
    · norm_num
    · norm_num
    · norm_num
    · omega
    · exact hc
    · exact hd b h
    · exact hcs
    · exact absurd h (List.not_mem_nil b)

/-- C1 witness at command 200 with payload `[1, 2]`. -/
theorem msp_frame_layout_witness :
    (([1, 2] : List ℕ).length ≤ 255 ∧ 200 < 256 ∧
      ∀ b ∈ ([1, 2] : List ℕ), b < 256) ∧
    (send_command_packet 200 [1, 2] =
      [36, 77, 60] ++ ([1, 2] : List ℕ).length :: 200 :: [1, 2] ++
        [calculate_checksum (([1, 2] : List ℕ).length :: 200 :: [1, 2])] ∧
    (send_command_packet 200 [1, 2]).length = 6 + ([1, 2] : List ℕ).length ∧
    ∀ b ∈ send_command_packet 200 [1, 2], b < 256) :=
  ⟨⟨by decide, by decide, by decide⟩,
    msp_frame_layout 200 [1, 2] (by decide) (by decide) (by decide)⟩

lemma pack_u16le_of_lt (v : ℕ) (hv : v < 65536) :
    pack_u16le v = [v % 256, v / 256] ∧ v % 256 + 256 * (v / 256) = v := by
  constructor
  · unfold pack_u16le
    have : v / 256 < 256 := Nat.div_lt_of_lt_mul (by omega)
    rw [Nat.mod_eq_of_lt this]
  · exact Nat.mod_add_div v 256

/-- C9: `set_rc_channels` transmits a frame with command code 200
(SET_RAW_RC) whose payload is exactly 16 bytes: the eight channel values
packed as little-endian unsigned 16-bit integers in the order roll, pitch,
throttle, yaw, aux1, aux2, aux3, aux4. -/
theorem set_rc_channels_spec (roll pitch throttle yaw aux1 aux2 aux3 aux4 : ℕ)
    (h1 : roll < 65536) (h2 : pitch < 65536) (h3 : throttle < 65536)
    (h4 : yaw < 65536) (h5 : aux1 < 65536) (h6 : aux2 < 65536)
    (h7 : aux3 < 65536) (h8 : aux4 < 65536) :
    set_rc_channels_frame roll pitch throttle yaw aux1 aux2 aux3 aux4 =
      send_command_packet 200
        (set_rc_channels_data roll pitch throttle yaw aux1 aux2 aux3 aux4) ∧
    (set_rc_channels_data roll pitch throttle yaw aux1 aux2 aux3 aux4).length
      = 16 ∧
    set_rc_channels_data roll pitch throttle yaw aux1 aux2 aux3 aux4 =
      [roll % 256, roll / 256, pitch % 256, pitch / 256,
       throttle % 256, throttle / 256, yaw % 256, yaw / 256,
       aux1 % 256, aux1 / 256, aux2 % 256, aux2 / 256,
       aux3 % 256, aux3 / 256, aux4 % 256, aux4 / 256] ∧
    roll % 256 + 256 * (roll / 256) = roll ∧
    pitch % 256 + 256 * (pitch / 256) = pitch ∧
    throttle % 256 + 256 * (throttle / 256) = throttle ∧
    yaw % 256 + 256 * (yaw / 256) = yaw ∧
    aux1 % 256 + 256 * (aux1 / 256) = aux1 ∧
    aux2 % 256 + 256 * (aux2 / 256) = aux2 ∧
    aux3 % 256 + 256 * (aux3 / 256) = aux3 ∧
    aux4 % 256 + 256 * (aux4 / 256) = aux4 := by
  refine ⟨rfl, by simp [set_rc_channels_data, pack_u16le], ?_,
    (pack_u16le_of_lt roll h1).2, (pack_u16le_of_lt pitch h2).2,
    (pack_u16le_of_lt throttle h3).2, (pack_u16le_of_lt yaw h4).2,
    (pack_u16le_of_lt aux1 h5).2, (pack_u16le_of_lt aux2 h6).2,
    (pack_u16le_of_lt aux3 h7).2, (pack_u16le_of_lt aux4 h8).2⟩
  unfold set_rc_channels_data
  rw [(pack_u16le_of_lt roll h1).1, (pack_u16le_of_lt pitch h2).1,
    (pack_u16le_of_lt throttle h3).1, (pack_u16le_of_lt yaw h4).1,
    (pack_u16le_of_lt aux1 h5).1, (pack_u16le_of_lt aux2 h6).1,
    (pack_u16le_of_lt aux3 h7).1, (pack_u16le_of_lt aux4 h8).1]
  rfl

/-- C9 witness at the neutral stick values the controller actually sends. -/
theorem set_rc_channels_spec_witness :
    (1500 < 65536 ∧ 1400 < 65536 ∧ 1550 < 65536 ∧ 1600 < 65536 ∧
      1000 < 65536) ∧
    (set_rc_channels_frame 1500 1400 1550 1600 1000 1000 1000 1000 =
      send_command_packet 200
        (set_rc_channels_data 1500 1400 1550 1600 1000 1000 1000 1000) ∧
    (set_rc_channels_data 1500 1400 1550 1600 1000 1000 1000 1000).length
      = 16 ∧
    set_rc_channels_data 1500 1400 1550 1600 1000 1000 1000 1000 =
      [1500 % 256, 1500 / 256, 1400 % 256, 1400 / 256,
       1550 % 256, 1550 / 256, 1600 % 256, 1600 / 256,
       1000 % 256, 1000 / 256, 1000 % 256, 1000 / 256,
       1000 % 256, 1000 / 256, 1000 % 256, 1000 / 256] ∧
    1500 % 256 + 256 * (1500 / 256) = 1500 ∧
    1400 % 256 + 256 * (1400 / 256) = 1400 ∧
    1550 % 256 + 256 * (1550 / 256) = 1550 ∧
    1600 % 256 + 256 * (1600 / 256) = 1600 ∧
    1000 % 256 + 256 * (1000 / 256) = 1000 ∧
    1000 % 256 + 256 * (1000 / 256) = 1000 ∧
    1000 % 256 + 256 * (1000 / 256) = 1000 ∧
    1000 % 256 + 256 * (1000 / 256) = 1000) :=
  ⟨⟨by decide, by decide, by decide, by decide, by decide⟩,
    set_rc_channels_spec 1500 1400 1550 1600 1000 1000 1000 1000
      (by decide) (by decide) (by decide) (by decide)
      (by decide) (by decide) (by decide) (by decide)⟩

/-- C2: on the binary path, `move(x, y, z)` returns `True` and sets the
dead-reckoned position to exactly `{x, y, z}` for every prior pose, and
`rotate(d)` returns `True` and sets the heading to
`(heading_before + d) mod 360`, which always lies in `[0, 360)`, including
for negative `d`. -/
theorem dead_reckoning_spec (st : DroneState) (x y z d degrees : ℚ)
    (s1 s2 : List ℚ) :
    ((move_msp st x y z d s1).1.x = x ∧ (move_msp st x y z d s1).1.y = y ∧
     (move_msp st x y z d s1).1.z = z ∧ (move_msp st x y z d s1).2.2 = true) ∧
    ((rotate_msp st degrees s2).1.heading =
        pymod (st.heading + degrees) 360 ∧
     0 ≤ (rotate_msp st degrees s2).1.heading ∧
     (rotate_msp st degrees s2).1.heading < 360 ∧
     (rotate_msp st degrees s2).2.2 = true) := by
  refine ⟨⟨rfl, rfl, rfl, rfl⟩, rfl, ?_, ?_, rfl⟩
  · exact pymod_nonneg _ _ (by norm_num)
  · exact pymod_lt _ _ (by norm_num)

/-- C5: on the binary path, a move with planar distance `d > 0` holds
roll `1500 + int(dx/d*100)` and pitch `1500 + int(dy/d*100)`, each clamped
to [1400, 1600], for `d * 2` time-units, then issues exactly one neutral
snapshot (all four primary channels 1500) before returning. -/
theorem move_channel_spec (st : DroneState) (x y z d : ℚ) (samples : List ℚ)
    (hd : 0 < d)
    (hsq : d * d = (x - st.x) * (x - st.x) + (y - st.y) * (y - st.y)) :
    (move_msp st x y z d samples).2.1 =
      holdTrace (max 1400 (min 1600 (1500 + pyint ((x - st.x) / d * 100))))
        (max 1400 (min 1600 (1500 + pyint ((y - st.y) / d * 100)))) 1500 1500
        (holdCount (d * 2) samples) ++ [Event.rc 1500 1500 1500 1500] ∧
    1400 ≤ max 1400 (min 1600 (1500 + pyint ((x - st.x) / d * 100))) ∧
    max 1400 (min 1600 (1500 + pyint ((x - st.x) / d * 100))) ≤ 1600 ∧
    1400 ≤ max 1400 (min 1600 (1500 + pyint ((y - st.y) / d * 100))) ∧
    max 1400 (min 1600 (1500 + pyint ((y - st.y) / d * 100))) ≤ 1600 ∧
    (move_msp st x y z d samples).2.2 = true := by
  refine ⟨?_, le_max_left _ _, max_le (by norm_num) (min_le_left _ _),
    le_max_left _ _, max_le (by norm_num) (min_le_left _ _), rfl⟩
  simp [move_msp, hd]

/-- C5 witness: from the origin, moving to (3, 4) has distance 5; roll is
1560, pitch 1580, hold time 10, with one clock reading inside the hold. -/
theorem move_channel_spec_witness :
    ((0 : ℚ) < 5 ∧ (5 : ℚ) * 5 =
      (3 - initial_state.x) * (3 - initial_state.x) +
        (4 - initial_state.y) * (4 - initial_state.y)) ∧
    ((move_msp initial_state 3 4 0 5 [0]).2.1 =
      holdTrace
        (max 1400 (min 1600 (1500 + pyint ((3 - initial_state.x) / 5 * 100))))
        (max 1400 (min 1600 (1500 + pyint ((4 - initial_state.y) / 5 * 100))))
        1500 1500 (holdCount (5 * 2) [0]) ++
        [Event.rc 1500 1500 1500 1500] ∧
    1400 ≤ max 1400 (min 1600 (1500 + pyint ((3 - initial_state.x) / 5 * 100))) ∧
    max 1400 (min 1600 (1500 + pyint ((3 - initial_state.x) / 5 * 100))) ≤ 1600 ∧
    1400 ≤ max 1400 (min 1600 (1500 + pyint ((4 - initial_state.y) / 5 * 100))) ∧
    max 1400 (min 1600 (1500 + pyint ((4 - initial_state.y) / 5 * 100))) ≤ 1600 ∧
    (move_msp initial_state 3 4 0 5 [0]).2.2 = true) :=
  ⟨⟨by norm_num, by norm_num [initial_state]⟩,
    move_channel_spec initial_state 3 4 0 5 [0] (by norm_num)
      (by norm_num [initial_state])⟩

/-- C6: on the binary path, rotate commands yaw 1600 when `degrees > 0`,
1400 when `degrees < 0`, and 1500 otherwise, holds it for `|degrees| / 45`
time-units, and issues a neutral snapshot after the hold. -/
theorem rotate_channel_spec (st : DroneState) (degrees : ℚ)
    (samples : List ℚ) :
    (rotate_msp st degrees samples).2.1 =
      holdTrace 1500 1500 1500
        (if 0 < degrees then 1600 else if degrees < 0 then 1400 else 1500)
        (holdCount (|degrees| / 45) samples) ++
        [Event.rc 1500 1500 1500 1500] ∧
    (rotate_msp st degrees samples).2.2 = true :=
  ⟨rfl, rfl⟩

/-- C7: on the binary path, takeoff first arms, then ramps the throttle
linearly from 1000 in steps of 10 over exactly 50 steps paced by 0.1 s
sleeps with roll, pitch and yaw neutral, then holds throttle 1550 for a
settle window of 20 paced steps totalling 2 seconds of sleep, sets the
dead-reckoned `z` to exactly `height`, and returns success. -/
theorem takeoff_spec (st : DroneState) (height : ℚ) :
    takeoff_msp st height =
      ({ st with z := height },
       Event.arm :: Event.sleep 1 ::
         ((takeoff_ramp_throttles.map (fun t =>
             [Event.rc 1500 1500 t 1500, Event.sleep (1 / 10)])).flatten ++
          (List.replicate 20 [Event.rc 1500 1500 1550 1500,
             Event.sleep (1 / 10)]).flatten),
       true) ∧
    takeoff_ramp_throttles =
      (List.range 50).map (fun i : ℕ => 1000 + 10 * (i : ℤ)) ∧
    takeoff_ramp_throttles.length = 50 ∧
    traceSleepTime ((List.replicate 20 [Event.rc 1500 1500 1550 1500,
        Event.sleep (1 / 10)]).flatten) = 2 ∧
    (takeoff_msp st height).1.z = height ∧
    (takeoff_msp st height).2.2 = true := by
  refine ⟨rfl, rfl,
    by rw [takeoff_ramp_throttles, List.length_map, List.length_range],
    ?_, rfl, rfl⟩
  rw [traceSleepTime_replicate]
  norm_num

/-- C8: a zero-distance move emits no frames at all and a `rotate(0)` emits
exactly one neutral snapshot with zero hold-loop iterations; both return
success. -/
theorem zero_motion_spec (st : DroneState) (x y z d degrees : ℚ)
    (s1 s2 : List ℚ) (hx : x = st.x) (hy : y = st.y) (h0 : 0 ≤ d)
    (hsq : d * d = (x - st.x) * (x - st.x) + (y - st.y) * (y - st.y))
    (hdeg : degrees = 0) (hs2 : ∀ t ∈ s2, 0 ≤ t) :
    (move_msp st x y z d s1).2.1 = [] ∧
    (move_msp st x y z d s1).2.2 = true ∧
    holdCount (|degrees| / 45) s2 = 0 ∧
    (rotate_msp st degrees s2).2.1 = [Event.rc 1500 1500 1500 1500] ∧
    (rotate_msp st degrees s2).2.2 = true := by
  have hd0 : d = 0 := by
    have hz : d * d = 0 := by rw [hsq, hx, hy]; ring
    exact mul_self_eq_zero.mp hz
  have hcount : holdCount (|degrees| / 45) s2 = 0 := by
    refine holdCount_of_nonpos _ _ ?_ hs2
    rw [hdeg]
    norm_num
  refine ⟨?_, rfl, hcount, ?_, rfl⟩
  · simp [move_msp, hd0]
  · simp [rotate_msp, hcount, holdTrace]

/-- C8 witness: holding position exactly (distance 0) and rotating by 0,
with one clock reading available. -/
theorem zero_motion_spec_witness :
    ((0 : ℚ) = initial_state.x ∧ (0 : ℚ) = initial_state.y ∧ (0 : ℚ) ≤ 0 ∧
      (0 : ℚ) * 0 = (0 - initial_state.x) * (0 - initial_state.x) +
        (0 - initial_state.y) * (0 - initial_state.y) ∧
      (0 : ℚ) = 0 ∧ ∀ t ∈ ([0] : List ℚ), 0 ≤ t) ∧
    ((move_msp initial_state 0 0 0 0 [0]).2.1 = [] ∧
    (move_msp initial_state 0 0 0 0 [0]).2.2 = true ∧
    holdCount (|(0 : ℚ)| / 45) [0] = 0 ∧
    (rotate_msp initial_state 0 [0]).2.1 = [Event.rc 1500 1500 1500 1500] ∧
    (rotate_msp initial_state 0 [0]).2.2 = true) :=
  ⟨⟨by norm_num [initial_state], by norm_num [initial_state], by norm_num,
      by norm_num [initial_state], by norm_num, by norm_num⟩,
    zero_motion_spec initial_state 0 0 0 0 0 [0] [0]
      (by norm_num [initial_state]) (by norm_num [initial_state])
      (by norm_num) (by norm_num [initial_state]) (by norm_num)
      (by norm_num)⟩

/-- C3 counterexample: from the grounded initial state (never taken off),
`move(1, 0, 0)` (distance 1, one clock reading inside the hold) returns
`True`, emits RC channel frames, and changes the pose — it is not rejected
with a `NotAirborne` error. -/
theorem grounded_move_not_rejected :
    (move_msp initial_state 1 0 0 1 [0]).2.2 = true ∧
    (move_msp initial_state 1 0 0 1 [0]).2.1 ≠ [] ∧
    (move_msp initial_state 1 0 0 1 [0]).1 ≠ initial_state := by
  refine ⟨rfl, ?_, ?_⟩
  · norm_num [move_msp]
  · norm_num [move_msp, initial_state, DroneState.mk.injEq]

/-- C3 amended: the code has no airborne-state guard at all; from the
grounded initial state, `move` and `rotate` behave exactly as when airborne:
they return `True`, update the dead-reckoned pose, and `rotate` always emits
at least its neutral frame. -/
theorem grounded_move_rotate_proceed (x y z d degrees : ℚ)
    (s1 s2 : List ℚ) :
    (move_msp initial_state x y z d s1).2.2 = true ∧
    (move_msp initial_state x y z d s1).1 = ⟨x, y, z, 0⟩ ∧
    (rotate_msp initial_state degrees s2).2.2 = true ∧
    (rotate_msp initial_state degrees s2).1.heading = pymod degrees 360 ∧
    (rotate_msp initial_state degrees s2).2.1 ≠ [] := by
  refine ⟨rfl, rfl, rfl, ?_, ?_⟩
  · show pymod (initial_state.heading + degrees) 360 = pymod degrees 360
    simp [initial_state]
  · simp [rotate_msp]

/-- C4 counterexample: `close()` with a configured link only releases the
serial handle: its effect trace is exactly `[releaseLink]`, containing no
disarm, while a land attempt always emits a disarm frame. -/
theorem close_releases_without_land :
    close_trace true = [Event.releaseLink] ∧
    Event.disarm ∉ close_trace true ∧
    Event.disarm ∈ (land_msp initial_state).2.1 := by
  decide

/-- C4 amended: `close()` releases the link handle when one is configured
and does nothing otherwise; it never attempts `land()` (which would emit a
throttle ramp and a disarm), so there is no land error for it to swallow. -/
theorem close_spec (hasMsp : Bool) (st : DroneState) :
    close_trace hasMsp = (if hasMsp then [Event.releaseLink] else []) ∧
    Event.disarm ∉ close_trace hasMsp ∧
    (∀ r p t y, Event.rc r p t y ∉ close_trace hasMsp) ∧
    Event.disarm ∈ (land_msp st).2.1 := by
  refine ⟨rfl, ?_, ?_, ?_⟩
  · cases hasMsp <;> simp [close_trace]
  · intro r p t y
    cases hasMsp <;> simp [close_trace]
  · simp [land_msp]

/-- C10: on the REST path, when the request raises or the status is not 200,
`send_command` yields `None` (falsy), and with any falsy result takeoff,
move, rotate and land all return that falsy result and leave the
dead-reckoned pose completely unchanged. -/
theorem api_failure_spec (st : DroneState) (x y z height degrees : ℚ)
    (o : Option (ℕ × Bool)) (r : Option Bool)
    (ho : o = none ∨ ∃ s b, o = some (s, b) ∧ s ≠ 200)
    (hr : truthy r = false) :
    api_send_command o = none ∧
    truthy (api_send_command o) = false ∧
    takeoff_api st height r = (st, r) ∧
    move_api st x y z r = (st, r) ∧
    rotate_api st degrees r = (st, r) ∧
    land_api st r = (st, r) := by
  have hnone : api_send_command o = none := by
    rcases ho with rfl | ⟨s, b, rfl, hs⟩
    · rfl
    · simp [api_send_command, hs]
  refine ⟨hnone, by rw [hnone]; rfl, ?_, ?_, ?_, ?_⟩ <;>
    simp [takeoff_api, move_api, rotate_api, land_api, hr]

/-- C10 witness: a 500 response leaves every command falsy and the pose
untouched. -/
theorem api_failure_spec_witness :
    api_send_command (some (500, true)) = none ∧
    truthy (api_send_command (some (500, true))) = false ∧
    takeoff_api initial_state 4 none = (initial_state, none) ∧
    move_api initial_state 1 2 3 none = (initial_state, none) ∧
    rotate_api initial_state 5 none = (initial_state, none) ∧
    land_api initial_state none = (initial_state, none) :=
  api_failure_spec initial_state 1 2 3 4 5 (some (500, true)) none
    (Or.inr ⟨500, true, rfl, by decide⟩) rfl
